import Mathlib

/-!
Verification development for the dog-license application wizard implemented in
src/app/new-application/page.tsx. The component is shallowly embedded: the
browser storage, toasts and console are part of an explicit wizard state, and
the event handlers become pure state-transition functions. The helper module
lib/utils (sanitizeUSPhone, coerceDate, isWithinYears, parseNumberSafe,
isPositiveNumber) is not part of the reviewed sources, so those helpers are
modelled from the specification text.
-/

namespace DogLicense

/-- A file as delivered by the browser file picker. Only the byte size and the
MIME type string are inspected by the validation code. -/
structure BrowserFile where
  size : Nat
  type : String
deriving DecidableEq

/-- The FileList value held by a file input: a list of files. -/
abbrev FileListVal := List BrowserFile

/-- Modelled from the spec: sanitizeUSPhone from the missing lib/utils module.
The spec requires the value to normalize to a valid 10-digit US phone number;
normalization keeps the digit characters of the input. The flag mirrors the
ok field of the result consumed by the schema refinement. -/
def sanitizeUSPhoneOk (val : String) : Bool :=
  (val.toList.filter Char.isDigit).length == 10

/-- Decimal numeral parsing on character lists: a nonempty all-digit list
evaluates to its value, anything else fails. -/
def digitsToNat? (cs : List Char) : Option Nat :=
  if cs ≠ [] ∧ cs.all Char.isDigit then
    some (cs.foldl (fun n c => n * 10 + (c.toNat - 48)) 0)
  else none

/-- Modelled from the spec: parseNumberSafe from the missing lib/utils module,
which parses a numeral string to a number or fails. Modelled as parsing a
nonempty string of decimal digits to a natural number. -/
def parseNumberSafe (val : String) : Option Nat :=
  digitsToNat? val.toList

/-- Modelled from the spec: isPositiveNumber from the missing lib/utils
module. -/
def isPositiveNumber (n : Nat) : Bool :=
  decide (0 < n)

/-- Splitting a character list on the dash character, keeping empty pieces,
as string splitting does. -/
def splitOnDash : List Char → List Char → List (List Char)
  | [], acc => [acc.reverse]
  | c :: rest, acc =>
    if c = '-' then acc.reverse :: splitOnDash rest []
    else splitOnDash rest (c :: acc)

/-- Modelled from the spec: coerceDate from the missing lib/utils module; the
field must parse to a valid calendar date. Modelled as strict ISO YYYY-MM-DD
parsing to the code y * 10000 + m * 100 + d, whose numeric order agrees with
calendar order. -/
def coerceDate (s : String) : Option Nat :=
  match splitOnDash s.toList [] with
  | [y, m, d] =>
    if y.length = 4 ∧ m.length = 2 ∧ d.length = 2 then
      match digitsToNat? y, digitsToNat? m, digitsToNat? d with
      | some yn, some mn, some dn =>
        if 1 ≤ mn ∧ mn ≤ 12 ∧ 1 ≤ dn ∧ dn ≤ 31 then
          some (yn * 10000 + mn * 100 + dn)
        else none
      | _, _, _ => none
    else none
  | _ => none

/-- Modelled from the spec: isWithinYears from the missing lib/utils module;
the date must fall within the last given number of years of the current date.
Dates carry the encoding of coerceDate and the current date is passed in
explicitly as today. -/
def isWithinYears (today : Nat) (encoded : Nat) (years : Nat) : Bool :=
  decide (encoded ≤ today ∧ today ≤ encoded + years * 10000)

/-- Owner name rule of createDogLicenseSchema: string length between 2 and
100. -/
def validOwnerName (s : String) : Bool :=
  decide (2 ≤ s.length ∧ s.length ≤ 100)

/-- Owner address rule of createDogLicenseSchema: string length between 10 and
200. -/
def validOwnerAddress (s : String) : Bool :=
  decide (10 ≤ s.length ∧ s.length ≤ 200)

/-- Owner phone rule of createDogLicenseSchema: sanitizeUSPhone succeeds. -/
def validOwnerPhone (s : String) : Bool :=
  sanitizeUSPhoneOk s

/-- Dog name rule of createDogLicenseSchema: string length between 1 and
50. -/
def validDogName (s : String) : Bool :=
  decide (1 ≤ s.length ∧ s.length ≤ 50)

/-- Dog breed rule of createDogLicenseSchema: string length between 1 and
50. -/
def validDogBreed (s : String) : Bool :=
  decide (1 ≤ s.length ∧ s.length ≤ 50)

/-- Dog age rule of createDogLicenseSchema: the string parses to a number that
is positive and at most 30. -/
def validDogAge (s : String) : Bool :=
  match parseNumberSafe s with
  | some n => isPositiveNumber n && decide (n ≤ 30)
  | none => false

/-- Dog color rule of createDogLicenseSchema: string length between 1 and
30. -/
def validDogColor (s : String) : Bool :=
  decide (1 ≤ s.length ∧ s.length ≤ 30)

/-- Last rabies shot rule of createDogLicenseSchema: the string coerces to a
date and that date lies within the last 3 years of today. -/
def validLastRabiesShotDate (today : Nat) (s : String) : Bool :=
  match coerceDate s with
  | some d => isWithinYears today d 3
  | none => false

/-- The MIME types accepted for the vaccination certificate, from
createDogLicenseSchema. -/
def allowedCertificateTypes : List String :=
  ["application/pdf", "image/jpeg", "image/png", "image/jpg"]

/-- Client-side vaccination certificate rule of createDogLicenseSchema: a
FileList value whose first file exists, is at most 5 MB and has an accepted
MIME type. -/
def validVaccinationCertificateClient (v : Option FileListVal) : Bool :=
  match v with
  | some files =>
    decide (0 < files.length) &&
      (match files.head? with
       | some file =>
         decide (file.size ≤ 5 * 1024 * 1024) &&
           allowedCertificateTypes.contains file.type
       | none => false)
  | none => false

/-- Vaccination certificate rule of createDogLicenseSchema: in a browser
context the client rule applies; otherwise the field is optional and every
value passes. -/
def validVaccinationCertificate (isBrowser : Bool) (v : Option FileListVal) : Bool :=
  if isBrowser then validVaccinationCertificateClient v else true

/-- The form values of the wizard, from createDogLicenseSchema and the
defaultValues of useForm. The vaccination certificate is the optional
FileList of the file input. -/
structure DogLicenseFormData where
  ownerName : String
  ownerAddress : String
  ownerPhone : String
  dogName : String
  dogBreed : String
  dogAge : String
  dogColor : String
  lastRabiesShotDate : String
  vaccinationCertificate : Option FileListVal
deriving DecidableEq

/-- The defaultValues passed to useForm: every scalar field is the empty
string and the file input is empty. -/
def defaultFormData : DogLicenseFormData :=
  { ownerName := ""
    ownerAddress := ""
    ownerPhone := ""
    dogName := ""
    dogBreed := ""
    dogAge := ""
    dogColor := ""
    lastRabiesShotDate := ""
    vaccinationCertificate := none }

/-- Identifiers of the form fields, as used by getFieldsForStep. -/
inductive FormFieldId
  | ownerName
  | ownerAddress
  | ownerPhone
  | dogName
  | dogBreed
  | dogAge
  | dogColor
  | lastRabiesShotDate
  | vaccinationCertificate
deriving DecidableEq

/-- getFieldsForStep from the component: the disjoint field subsets owned by
steps 1, 2 and 3; every other step owns no fields. -/
def getFieldsForStep : Nat → List FormFieldId
  | 1 => [.ownerName, .ownerAddress, .ownerPhone]
  | 2 => [.dogName, .dogBreed, .dogAge, .dogColor]
  | 3 => [.lastRabiesShotDate, .vaccinationCertificate]
  | _ => []

/-- Validation of a single field of the form, combining the per-field rules of
createDogLicenseSchema. -/
def validateField (today : Nat) (isBrowser : Bool) (f : DogLicenseFormData) :
    FormFieldId → Bool
  | .ownerName => validOwnerName f.ownerName
  | .ownerAddress => validOwnerAddress f.ownerAddress
  | .ownerPhone => validOwnerPhone f.ownerPhone
  | .dogName => validDogName f.dogName
  | .dogBreed => validDogBreed f.dogBreed
  | .dogAge => validDogAge f.dogAge
  | .dogColor => validDogColor f.dogColor
  | .lastRabiesShotDate => validLastRabiesShotDate today f.lastRabiesShotDate
  | .vaccinationCertificate =>
      validVaccinationCertificate isBrowser f.vaccinationCertificate

/-- The outcome of form.trigger on the fields of one step: every field of the
step passes its rule. -/
def stepFieldsValid (today : Nat) (isBrowser : Bool) (f : DogLicenseFormData)
    (step : Nat) : Bool :=
  (getFieldsForStep step).all (validateField today isBrowser f)

/-- The list of all form fields, in schema order. -/
def allFormFields : List FormFieldId :=
  [.ownerName, .ownerAddress, .ownerPhone, .dogName, .dogBreed, .dogAge,
   .dogColor, .lastRabiesShotDate, .vaccinationCertificate]

/-- Full-form validity: every field of the schema passes its rule. -/
def formAllValid (today : Nat) (isBrowser : Bool) (f : DogLicenseFormData) : Bool :=
  allFormFields.all (validateField today isBrowser f)

/-- One entry of the STEPS array; the icon component is presentation and is
omitted. -/
structure WizardStep where
  id : Nat
  title : String
  description : String
deriving DecidableEq

/-- The STEPS array of the component. -/
def STEPS : List WizardStep :=
  [⟨1, "Owner Information", "Your personal details"⟩,
   ⟨2, "Dog Information", "About your dog"⟩,
   ⟨3, "Vaccination Records", "Health documentation"⟩,
   ⟨4, "Review & Submit", "Confirm your application"⟩]

/-- A toast raised through the sonner toast API. -/
inductive Toast
  | success (msg : String)
  | error (msg : String)
  | info (msg : String)
deriving DecidableEq

/-- The record built by onSubmit and appended to the stored application list:
the application identifier, every form field, the submission timestamp and the
fixed status string. -/
structure SubmittedApplication where
  id : String
  ownerName : String
  ownerAddress : String
  ownerPhone : String
  dogName : String
  dogBreed : String
  dogAge : String
  dogColor : String
  lastRabiesShotDate : String
  vaccinationCertificate : Option FileListVal
  submittedAt : String
  status : String
deriving DecidableEq

/-- A local-storage slot holding JSON text: either text that parses to a value
of the expected shape, or corrupt text on which JSON.parse throws. -/
inductive StoredJson (α : Type)
  | corrupt (raw : String)
  | ok (value : α)
deriving DecidableEq

/-- The scalar draft written to the dogLicenseFormData key: every form field
except the vaccination certificate, which the save effect deletes before
serializing. -/
structure DraftData where
  ownerName : String
  ownerAddress : String
  ownerPhone : String
  dogName : String
  dogBreed : String
  dogAge : String
  dogColor : String
  lastRabiesShotDate : String
deriving DecidableEq

/-- The draft saved from a form state: the file field is dropped. -/
def draftOfForm (f : DogLicenseFormData) : DraftData :=
  { ownerName := f.ownerName
    ownerAddress := f.ownerAddress
    ownerPhone := f.ownerPhone
    dogName := f.dogName
    dogBreed := f.dogBreed
    dogAge := f.dogAge
    dogColor := f.dogColor
    lastRabiesShotDate := f.lastRabiesShotDate }

/-- form.reset applied to a parsed draft: the scalar fields take the draft
values and the file field, absent from the draft, becomes empty. -/
def formOfDraft (d : DraftData) : DogLicenseFormData :=
  { ownerName := d.ownerName
    ownerAddress := d.ownerAddress
    ownerPhone := d.ownerPhone
    dogName := d.dogName
    dogBreed := d.dogBreed
    dogAge := d.dogAge
    dogColor := d.dogColor
    lastRabiesShotDate := d.lastRabiesShotDate
    vaccinationCertificate := none }

/-- The observable state of the wizard together with its environment: the step
index, the hydration flag, the form values, the two local-storage keys, the
toasts raised, the console log and the pending redirect. Toasts and log
entries are accumulated front-first. -/
structure WizardState where
  currentStep : Nat
  isClient : Bool
  form : DogLicenseFormData
  draftStore : Option (StoredJson DraftData)
  appsStore : Option (StoredJson (List SubmittedApplication))
  toasts : List Toast
  consoleLog : List String
  redirectTo : Option String
deriving DecidableEq

/-- The hydrated component state right after mount, before any restore effect
ran: step 1, default form values, given storage contents, no toasts, no log,
no redirect. -/
def initialState (draft : Option (StoredJson DraftData))
    (apps : Option (StoredJson (List SubmittedApplication))) : WizardState :=
  { currentStep := 1
    isClient := true
    form := defaultFormData
    draftStore := draft
    appsStore := apps
    toasts := []
    consoleLog := []
    redirectTo := none }

/-- generateApplicationId from the component: DOG, the current epoch
milliseconds and a random draw floored into 0..9999, joined by dashes. The
draw of Math.floor of Math.random times 10000 is modelled by reducing an
arbitrary natural seed modulo 10000. -/
def generateApplicationId (timestampMillis : Nat) (randomSeed : Nat) : String :=
  "DOG-" ++ Nat.repr timestampMillis ++ "-" ++ Nat.repr (randomSeed % 10000)

/-- Reading the dogLicenseApplications key inside onSubmit: a missing key
falls back to the empty array text, well-formed text parses to the stored
list, and corrupt text makes JSON.parse throw, returning none here. -/
def readStoredApplications :
    Option (StoredJson (List SubmittedApplication)) →
      Option (List SubmittedApplication)
  | none => some []
  | some (.ok l) => some l
  | some (.corrupt _) => none

/-- The applicationData record built by onSubmit. -/
def mkSubmittedRecord (appId : String) (data : DogLicenseFormData)
    (submittedAtIso : String) : SubmittedApplication :=
  { id := appId
    ownerName := data.ownerName
    ownerAddress := data.ownerAddress
    ownerPhone := data.ownerPhone
    dogName := data.dogName
    dogBreed := data.dogBreed
    dogAge := data.dogAge
    dogColor := data.dogColor
    lastRabiesShotDate := data.lastRabiesShotDate
    vaccinationCertificate := data.vaccinationCertificate
    submittedAt := submittedAtIso
    status := "submitted" }

/-- onSubmit from the component. Outside the client context it returns with no
effect. Otherwise it reads the stored application list; if that read throws,
the catch block logs and raises the generic failure toast, leaving every store
untouched. On success it appends the new record, removes the draft key, raises
the success toast, resets the form and the step, and schedules the redirect to
the tracking route. -/
def onSubmit (nowMillis : Nat) (randomSeed : Nat) (nowIso : String)
    (data : DogLicenseFormData) (s : WizardState) : WizardState :=
  if s.isClient = false then s
  else
    match readStoredApplications s.appsStore with
    | some existingApps =>
      let applicationId := generateApplicationId nowMillis randomSeed
      let record := mkSubmittedRecord applicationId data nowIso
      { s with
        appsStore := some (.ok (existingApps ++ [record]))
        draftStore := none
        toasts :=
          .success ("Application submitted successfully! Your application ID is: "
            ++ applicationId) :: s.toasts
        form := defaultFormData
        currentStep := 1
        redirectTo := some ("/track-application?id=" ++ applicationId) }
    | none =>
      { s with
        consoleLog := "Error submitting application:" :: s.consoleLog
        toasts := .error "Failed to submit application. Please try again." :: s.toasts }

/-- nextStep from the component: trigger validation of the fields of the
current step; on success advance, clamped at the number of steps; on failure
raise the error toast and stay. -/
def nextStep (today : Nat) (s : WizardState) : WizardState :=
  if stepFieldsValid today s.isClient s.form s.currentStep then
    { s with currentStep := min (s.currentStep + 1) STEPS.length }
  else
    { s with toasts := .error "Please fix the errors before continuing" :: s.toasts }

/-- prevStep from the component: decrement the step, clamped at 1, with no
validation. -/
def prevStep (s : WizardState) : WizardState :=
  { s with currentStep := max (s.currentStep - 1) 1 }

/-- The draft-save effect: in the client context, write the form minus the
file field to the dogLicenseFormData key, overwriting any prior draft. -/
def saveDraft (s : WizardState) : WizardState :=
  if s.isClient then
    { s with draftStore := some (.ok (draftOfForm s.form)) }
  else s

/-- The draft-restore effect: in the client context, if the draft key holds
text, parse it; on success reset the form from it and raise the info toast; a
parse failure is caught and logged, leaving the form as it was. The function
is total: no exception escapes. -/
def restoreDraft (s : WizardState) : WizardState :=
  if s.isClient then
    match s.draftStore with
    | some (.ok d) =>
      { s with
        form := formOfDraft d
        toasts := .info "Previous form data restored" :: s.toasts }
    | some (.corrupt raw) =>
      { s with consoleLog := ("Error loading saved form data: " ++ raw) :: s.consoleLog }
    | none => s
  else s

/-- A navigation event of the wizard: a click on Next at a given current date,
or a click on Previous. -/
inductive WizardEvent
  | next (today : Nat)
  | prev

/-- Apply one navigation event to the state. -/
def applyEvent (s : WizardState) : WizardEvent → WizardState
  | .next today => nextStep today s
  | .prev => prevStep s

/-- Apply a sequence of navigation events left to right. -/
def runEvents (s : WizardState) (events : List WizardEvent) : WizardState :=
  events.foldl applyEvent s

/-- A form state satisfying every rule of the schema, used to instantiate the
universally quantified theorems. -/
def sampleValidForm : DogLicenseFormData :=
  { ownerName := "Jane Doe"
    ownerAddress := "123 Main St, Springfield, IL 62701"
    ownerPhone := "(555) 123-4567"
    dogName := "Rex"
    dogBreed := "Labrador"
    dogAge := "4"
    dogColor := "Black"
    lastRabiesShotDate := "2025-06-01"
    vaccinationCertificate := some [⟨2 * 1024 * 1024, "application/pdf"⟩] }

/-- The current date used by the sample states, encoded as by coerceDate. -/
def sampleToday : Nat := 20261012

/-- A hydrated state whose form is still empty: step 1 validation fails on
it. -/
def sampleInvalidState : WizardState :=
  initialState none none

/-- A hydrated state with a fully valid form and one previously stored
application. -/
def sampleReadyState : WizardState :=
  { initialState none
      (some (.ok [mkSubmittedRecord "DOG-1-1" sampleValidForm "2026-01-01T00:00:00.000Z"]))
    with form := sampleValidForm, currentStep := 4 }

/-- A hydrated state whose application store holds corrupt text, so the read
inside onSubmit throws. -/
def sampleCorruptAppsState : WizardState :=
  { initialState none (some (.corrupt "not json")) with form := sampleValidForm }

/-- A pre-hydration state: the client flag is still false. -/
def sampleServerState : WizardState :=
  { initialState none none with isClient := false }

/-- Claim C9: the dog-age field validates exactly when the string parses to a
positive number of at most 30; the input 31 fails and the input 3 passes. -/
theorem dog_age_validation :
    validDogAge "31" = false ∧ validDogAge "3" = true ∧
      (∀ s : String, validDogAge s = true ↔
        ∃ n, parseNumberSafe s = some n ∧ 0 < n ∧ n ≤ 30) := by
  refine ⟨by decide, by decide, ?_⟩
  intro s
  unfold validDogAge
  cases h : parseNumberSafe s <;> simp [h, isPositiveNumber]

/-- Claim C8: in a browser context the vaccination-certificate field validates
exactly when a first file is present, its size is at most 5 MB and its MIME
type is one of the accepted PDF, JPEG and PNG types; in a non-browser context
every value is accepted unvalidated. -/
theorem vaccination_certificate_validation :
    (∀ v : Option FileListVal, validVaccinationCertificate false v = true) ∧
      (∀ v : Option FileListVal,
        validVaccinationCertificate true v = true ↔
          ∃ file rest, v = some (file :: rest) ∧
            file.size ≤ 5 * 1024 * 1024 ∧ file.type ∈ allowedCertificateTypes) := by
  constructor
  · intro v
    simp [validVaccinationCertificate]
  · intro v
    cases v with
    | none => simp [validVaccinationCertificate, validVaccinationCertificateClient]
    | some files =>
      cases files with
      | nil => simp [validVaccinationCertificate, validVaccinationCertificateClient]
      | cons f rest =>
        simp [validVaccinationCertificate, validVaccinationCertificateClient,
          List.head?]

/-- Claim C10: invoked outside the client context, onSubmit returns the state
unchanged: no record is appended, the draft key is untouched, no toast is
raised and the step index is unchanged. -/
theorem onSubmit_not_client_noop (nowMillis randomSeed : Nat) (nowIso : String)
    (data : DogLicenseFormData) (s : WizardState)
    (hclient : s.isClient = false) :
    onSubmit nowMillis randomSeed nowIso data s = s := by
  simp [onSubmit, hclient]

/-- Witness for the C10 theorem at a concrete pre-hydration state. -/
theorem onSubmit_not_client_noop_witness :
    onSubmit 1760000000000 7 "2026-10-12T00:00:00.000Z" sampleValidForm
        sampleServerState =
      sampleServerState :=
  onSubmit_not_client_noop 1760000000000 7 "2026-10-12T00:00:00.000Z"
    sampleValidForm sampleServerState (by decide)

/-- Claim C3: when the submission raises, the exception is caught inside
onSubmit: the failure is logged, the generic failure toast is raised, and the
draft store, application store, form and step index are all left unchanged. In
this embedding the realizable exception is the JSON parse of a corrupt
application store. -/
theorem onSubmit_failure_caught (nowMillis randomSeed : Nat) (nowIso : String)
    (data : DogLicenseFormData) (s : WizardState)
    (hclient : s.isClient = true)
    (hthrow : readStoredApplications s.appsStore = none) :
    (onSubmit nowMillis randomSeed nowIso data s).draftStore = s.draftStore ∧
      (onSubmit nowMillis randomSeed nowIso data s).appsStore = s.appsStore ∧
      (onSubmit nowMillis randomSeed nowIso data s).currentStep = s.currentStep ∧
      (onSubmit nowMillis randomSeed nowIso data s).form = s.form ∧
      (onSubmit nowMillis randomSeed nowIso data s).toasts =
        Toast.error "Failed to submit application. Please try again." :: s.toasts ∧
      (onSubmit nowMillis randomSeed nowIso data s).consoleLog =
        "Error submitting application:" :: s.consoleLog := by
  simp [onSubmit, hclient, hthrow]

/-- Witness for the C3 theorem at a concrete state with a corrupt application
store. -/
theorem onSubmit_failure_caught_witness :
    (onSubmit 1760000000000 7 "2026-10-12T00:00:00.000Z" sampleValidForm
          sampleCorruptAppsState).draftStore =
        sampleCorruptAppsState.draftStore ∧
      (onSubmit 1760000000000 7 "2026-10-12T00:00:00.000Z" sampleValidForm
          sampleCorruptAppsState).appsStore =
        sampleCorruptAppsState.appsStore ∧
      (onSubmit 1760000000000 7 "2026-10-12T00:00:00.000Z" sampleValidForm
          sampleCorruptAppsState).currentStep =
        sampleCorruptAppsState.currentStep ∧
      (onSubmit 1760000000000 7 "2026-10-12T00:00:00.000Z" sampleValidForm
          sampleCorruptAppsState).form =
        sampleCorruptAppsState.form ∧
      (onSubmit 1760000000000 7 "2026-10-12T00:00:00.000Z" sampleValidForm
          sampleCorruptAppsState).toasts =
        Toast.error "Failed to submit application. Please try again."
          :: sampleCorruptAppsState.toasts ∧
      (onSubmit 1760000000000 7 "2026-10-12T00:00:00.000Z" sampleValidForm
          sampleCorruptAppsState).consoleLog =
        "Error submitting application:" :: sampleCorruptAppsState.consoleLog :=
  onSubmit_failure_caught 1760000000000 7 "2026-10-12T00:00:00.000Z"
    sampleValidForm sampleCorruptAppsState (by decide) (by decide)

/-- Claim C7: restoring from a draft slot whose text fails to parse yields the
empty form with every field at its default value, logs the parse failure, and
raises no toast; restoreDraft is a total function, so no exception escapes. -/
theorem restore_corrupt_draft_yields_empty_form (raw : String) :
    (restoreDraft (initialState (some (StoredJson.corrupt raw)) none)).form =
        defaultFormData ∧
      (restoreDraft (initialState (some (StoredJson.corrupt raw)) none)).consoleLog =
        [("Error loading saved form data: " ++ raw)] ∧
      (restoreDraft (initialState (some (StoredJson.corrupt raw)) none)).toasts = [] := by
  simp [restoreDraft, initialState]

/-- Claim C6: saving the draft and then restoring it reproduces identical
values in every non-file form field. -/
theorem draft_save_restore_round_trip (s : WizardState)
    (hclient : s.isClient = true) :
    (restoreDraft (saveDraft s)).form.ownerName = s.form.ownerName ∧
      (restoreDraft (saveDraft s)).form.ownerAddress = s.form.ownerAddress ∧
      (restoreDraft (saveDraft s)).form.ownerPhone = s.form.ownerPhone ∧
      (restoreDraft (saveDraft s)).form.dogName = s.form.dogName ∧
      (restoreDraft (saveDraft s)).form.dogBreed = s.form.dogBreed ∧
      (restoreDraft (saveDraft s)).form.dogAge = s.form.dogAge ∧
      (restoreDraft (saveDraft s)).form.dogColor = s.form.dogColor ∧
      (restoreDraft (saveDraft s)).form.lastRabiesShotDate =
        s.form.lastRabiesShotDate := by
  simp [saveDraft, restoreDraft, hclient, draftOfForm, formOfDraft]

/-- Witness for the C6 theorem at a concrete hydrated state with a populated
form. -/
theorem draft_save_restore_round_trip_witness :
    (restoreDraft (saveDraft sampleReadyState)).form.ownerName =
        sampleReadyState.form.ownerName ∧
      (restoreDraft (saveDraft sampleReadyState)).form.ownerAddress =
        sampleReadyState.form.ownerAddress ∧
      (restoreDraft (saveDraft sampleReadyState)).form.ownerPhone =
        sampleReadyState.form.ownerPhone ∧
      (restoreDraft (saveDraft sampleReadyState)).form.dogName =
        sampleReadyState.form.dogName ∧
      (restoreDraft (saveDraft sampleReadyState)).form.dogBreed =
        sampleReadyState.form.dogBreed ∧
      (restoreDraft (saveDraft sampleReadyState)).form.dogAge =
        sampleReadyState.form.dogAge ∧
      (restoreDraft (saveDraft sampleReadyState)).form.dogColor =
        sampleReadyState.form.dogColor ∧
      (restoreDraft (saveDraft sampleReadyState)).form.lastRabiesShotDate =
        sampleReadyState.form.lastRabiesShotDate :=
  draft_save_restore_round_trip sampleReadyState (by decide)

/-- Claim C1: for each of the steps 1, 2 and 3, nextStep advances the step
index by one exactly when every field owned by the step passes its validation
rule; on a validation failure the step index is unchanged and the error toast
is surfaced. -/
theorem nextStep_step_gating (today : Nat) (s : WizardState) (step : Nat)
    (hcur : s.currentStep = step) (hstep : step = 1 ∨ step = 2 ∨ step = 3) :
    (stepFieldsValid today s.isClient s.form step = false →
        (nextStep today s).currentStep = step ∧
          (nextStep today s).toasts =
            Toast.error "Please fix the errors before continuing" :: s.toasts) ∧
      (stepFieldsValid today s.isClient s.form step = true →
        (nextStep today s).currentStep = step + 1) := by
  constructor
  · intro hv
    simp [nextStep, hcur, hv]
  · intro hv
    simp [nextStep, hcur, hv, STEPS]
    omega

/-- Witness for the C1 theorem: on the empty form the owner fields of step 1
fail validation, so nextStep stays at step 1 and raises the error toast. -/
theorem nextStep_step_gating_witness :
    (nextStep sampleToday sampleInvalidState).currentStep = 1 ∧
      (nextStep sampleToday sampleInvalidState).toasts =
        Toast.error "Please fix the errors before continuing"
          :: sampleInvalidState.toasts :=
  (nextStep_step_gating sampleToday sampleInvalidState 1 rfl (Or.inl rfl)).1
    (by decide)

/-- Bounds for a single navigation event: from a step index in the interval
from 1 to 4, both nextStep and prevStep land in the same interval. -/
theorem applyEvent_currentStep_bounds (s : WizardState) (e : WizardEvent)
    (h1 : 1 ≤ s.currentStep) (h4 : s.currentStep ≤ 4) :
    1 ≤ (applyEvent s e).currentStep ∧ (applyEvent s e).currentStep ≤ 4 := by
  cases e with
  | next today =>
    by_cases hv : stepFieldsValid today s.isClient s.form s.currentStep = true
    · have hns : (applyEvent s (WizardEvent.next today)).currentStep =
          min (s.currentStep + 1) 4 := by
        simp [applyEvent, nextStep, hv, STEPS]
      rw [hns]
      omega
    · have hns : (applyEvent s (WizardEvent.next today)).currentStep =
          s.currentStep := by
        simp [applyEvent, nextStep, hv]
      rw [hns]
      exact ⟨h1, h4⟩
  | prev =>
    have hps : (applyEvent s WizardEvent.prev).currentStep =
        max (s.currentStep - 1) 1 := rfl
    rw [hps]
    omega

/-- Bounds for any sequence of navigation events, by induction along the
sequence. -/
theorem runEvents_currentStep_bounds (events : List WizardEvent)
    (s : WizardState) (h1 : 1 ≤ s.currentStep) (h4 : s.currentStep ≤ 4) :
    1 ≤ (runEvents s events).currentStep ∧
      (runEvents s events).currentStep ≤ 4 := by
  induction events generalizing s with
  | nil => exact ⟨h1, h4⟩
  | cons e rest ih =>
    have hstep := applyEvent_currentStep_bounds s e h1 h4
    exact ih (applyEvent s e) hstep.1 hstep.2

/-- Claim C5: starting from step 1, any sequence of nextStep and prevStep
calls keeps the step index between 1 and 4; and prevStep succeeds
unconditionally, decrementing the index by one clamped at 1 and changing
nothing else, regardless of field validity. -/
theorem step_index_invariant :
    (∀ events : List WizardEvent,
        1 ≤ (runEvents (initialState none none) events).currentStep ∧
          (runEvents (initialState none none) events).currentStep ≤ 4) ∧
      ∀ s : WizardState,
        prevStep s = { s with currentStep := max (s.currentStep - 1) 1 } := by
  constructor
  · intro events
    exact runEvents_currentStep_bounds events (initialState none none)
      (by decide) (by decide)
  · intro s
    rfl

/-- Claim C2: on a successful submission with a valid form, exactly one new
record is appended at the end of the stored application list, built from every
draft field plus the generated identifier, the submission timestamp and the
status fixed to submitted; the draft key is removed and the wizard resets to
step 1; the existing records are preserved unchanged in place. -/
theorem onSubmit_success_appends (nowMillis randomSeed : Nat) (nowIso : String)
    (today : Nat) (data : DogLicenseFormData) (s : WizardState)
    (existingApps : List SubmittedApplication)
    (hclient : s.isClient = true)
    (hread : readStoredApplications s.appsStore = some existingApps)
    (hvalid : formAllValid today true data = true) :
    (onSubmit nowMillis randomSeed nowIso data s).appsStore =
        some (StoredJson.ok (existingApps ++
          [mkSubmittedRecord (generateApplicationId nowMillis randomSeed)
            data nowIso])) ∧
      (onSubmit nowMillis randomSeed nowIso data s).draftStore = none ∧
      (onSubmit nowMillis randomSeed nowIso data s).currentStep = 1 ∧
      (onSubmit nowMillis randomSeed nowIso data s).form = defaultFormData := by
  simp [onSubmit, hclient, hread]

/-- Witness for the C2 theorem at a concrete valid state holding one prior
record. -/
theorem onSubmit_success_appends_witness :
    (onSubmit 1760000000000 7 "2026-10-12T00:00:00.000Z" sampleValidForm
          sampleReadyState).appsStore =
        some (StoredJson.ok
          ([mkSubmittedRecord "DOG-1-1" sampleValidForm
              "2026-01-01T00:00:00.000Z"] ++
            [mkSubmittedRecord (generateApplicationId 1760000000000 7)
              sampleValidForm "2026-10-12T00:00:00.000Z"])) ∧
      (onSubmit 1760000000000 7 "2026-10-12T00:00:00.000Z" sampleValidForm
          sampleReadyState).draftStore = none ∧
      (onSubmit 1760000000000 7 "2026-10-12T00:00:00.000Z" sampleValidForm
          sampleReadyState).currentStep = 1 ∧
      (onSubmit 1760000000000 7 "2026-10-12T00:00:00.000Z" sampleValidForm
          sampleReadyState).form = defaultFormData :=
  onSubmit_success_appends 1760000000000 7 "2026-10-12T00:00:00.000Z"
    sampleToday sampleValidForm sampleReadyState
    [mkSubmittedRecord "DOG-1-1" sampleValidForm "2026-01-01T00:00:00.000Z"]
    rfl rfl (by decide)

/-- Each digit character produced for a value below ten is a decimal digit. -/
theorem digitChar_isDigit (n : Nat) (h : n < 10) :
    (Nat.digitChar n).isDigit = true := by
  interval_cases n <;> decide

/-- Pushing base-ten digits onto an all-digit accumulator keeps every
character a decimal digit. -/
theorem toDigitsCore_all_isDigit (fuel : Nat) :
    ∀ (n : Nat) (ds : List Char), ds.all Char.isDigit = true →
      (Nat.toDigitsCore 10 fuel n ds).all Char.isDigit = true := by
  induction fuel with
  | zero =>
    intro n ds h
    simpa [Nat.toDigitsCore] using h
  | succ fuel ih =>
    intro n ds h
    have hd : (Nat.digitChar (n % 10)).isDigit = true :=
      digitChar_isDigit (n % 10) (Nat.mod_lt n (by norm_num))
    by_cases hz : n / 10 = 0
    · simp [Nat.toDigitsCore, hz, hd, h]
    · simpa [Nat.toDigitsCore, hz] using
        ih (n / 10) (Nat.digitChar (n % 10) :: ds) (by simp [hd, h])

/-- The digit run produced with nonzero fuel, or onto a nonempty accumulator,
is nonempty. -/
theorem toDigitsCore_ne_nil (fuel : Nat) :
    ∀ (n : Nat) (ds : List Char), fuel ≠ 0 ∨ ds ≠ [] →
      Nat.toDigitsCore 10 fuel n ds ≠ [] := by
  induction fuel with
  | zero =>
    intro n ds h
    simpa [Nat.toDigitsCore] using h.resolve_left (by simp)
  | succ fuel ih =>
    intro n ds _
    by_cases hz : n / 10 = 0
    · simp [Nat.toDigitsCore, hz]
    · simpa [Nat.toDigitsCore, hz] using
        ih (n / 10) (Nat.digitChar (n % 10) :: ds) (Or.inr (by simp))

/-- The decimal rendering of a natural number is a nonempty string of decimal
digits. -/
theorem repr_toList_digits (n : Nat) :
    (Nat.repr n).toList.all Char.isDigit = true ∧ (Nat.repr n).toList ≠ [] := by
  have hrepr : (Nat.repr n).toList = Nat.toDigitsCore 10 (n + 1) n [] := rfl
  rw [hrepr]
  exact ⟨toDigitsCore_all_isDigit (n + 1) n [] rfl,
    toDigitsCore_ne_nil (n + 1) n [] (Or.inl (by simp))⟩

/-- Claim C4: every generated identifier is the string DOG-t-r where t is the
epoch-millisecond timestamp and r is the random draw reduced into the range
from 0 to 9999, both rendered as nonempty runs of decimal digits, so the
identifier matches the pattern DOG-digits-digits. -/
theorem generateApplicationId_format (t r : Nat) :
    generateApplicationId t r =
        "DOG-" ++ Nat.repr t ++ "-" ++ Nat.repr (r % 10000) ∧
      r % 10000 ≤ 9999 ∧
      (Nat.repr t).toList ≠ [] ∧
      (Nat.repr t).toList.all Char.isDigit = true ∧
      (Nat.repr (r % 10000)).toList ≠ [] ∧
      (Nat.repr (r % 10000)).toList.all Char.isDigit = true := by
  refine ⟨rfl, ?_, (repr_toList_digits t).2, (repr_toList_digits t).1,
    (repr_toList_digits (r % 10000)).2, (repr_toList_digits (r % 10000)).1⟩
  have := Nat.mod_lt r (show 0 < 10000 by norm_num)
  omega

end DogLicense
